import Mathlib

/-!
Shallow embedding of the client-side to-do collection core of
maxwellflitton/web-server-example:
  * `Todo` and `NewTodo` (src/frontends/web/src/core/ToDoItem.ts),
  * the `Operation` tagged union and the capability interfaces
    (src/core/interfaces.ts),
  * the `ToDoResponse` / `EmptyResponse` envelopes (src/core/utils.ts),
  * the `ToDoItems` collection (src/frontends/web/src/core/ToDoItems.ts).

Modelling conventions:
  * JS `Date` values are represented by integers (their epoch value); only
    their identity matters to this layer.
  * Asynchronous remote calls are embedded by state passing: each method
    returns the new collection state, an `Except String` outcome standing
    for the promise (`.error msg` is a rejection whose `Error` has that
    message), and a record of the remote capability calls it performed.
  * The per-instance `callbackHandle` closure stored into
    `Todo.handleTrigger` is identified by the owning collection's `cid`
    field (closure identity), since a closure cannot be stored inside the
    record it closes over.
  * JS truthiness of a nullable string (`!items.errorMessage`) is embedded
    by `strTruthy`: `null`/`undefined` and the empty string are falsy.
-/

namespace WebServer

/-- JS `Date`, identified by its epoch value. -/
abbrev Date := Int

/-- The `Operation` tagged union from src/core/interfaces.ts. -/
inductive Operation where
  | Complete (cutOffDate : Date)
  | Create (cutOffDate : Date)
  | Delete (cutOffDate : Date)
  | Reassign (newId : Int) (cutOffDate : Date)
deriving DecidableEq, Repr

/-- The `Todo` entity from src/frontends/web/src/core/ToDoItem.ts.
`handleTrigger` holds the `cid` of the collection whose `callbackHandle`
closure is bound, or `none` for the JS `null`. -/
structure Todo where
  id : Int
  name : String
  dueDate : Option Date
  assignedBy : Int
  assignedTo : Int
  description : Option String
  dateAssigned : Date
  dateFinished : Option Date
  finished : Bool
  handleTrigger : Option Nat
deriving DecidableEq, Repr

/-- The `Todo` constructor: optional params default as in the source
(`?? null`, `finished ?? false`, `dateAssigned ?? new Date()` with the
current time passed in as `now`); `handleTrigger` starts `null`. -/
def Todo.create (now : Date) (id : Int) (name : String)
    (assignedBy : Int) (assignedTo : Int) (dateAssigned : Option Date)
    (dueDate : Option Date) (description : Option String)
    (dateFinished : Option Date) (finished : Option Bool) : Todo :=
  { id := id
    name := name
    dueDate := dueDate
    assignedBy := assignedBy
    assignedTo := assignedTo
    description := description
    dateAssigned := dateAssigned.getD now
    dateFinished := dateFinished
    finished := finished.getD false
    handleTrigger := none }

/-- The `ToDoResponse` envelope from src/core/utils.ts: the class stores
both nullable fields. -/
structure ToDoResponse where
  errorMessage : Option String
  toDos : Option (List Todo)
deriving DecidableEq, Repr

/-- The `EmptyResponse` envelope from src/core/utils.ts. -/
structure EmptyResponse where
  code : Nat
  message : Option String
deriving DecidableEq, Repr

/-- The `ItemGetter` capability interface: a `jwt` field plus the
`getItems(jwt, userId, cutOffDate)` remote call, embedded as a function
from the call arguments to the response it resolves with. -/
structure ItemGetter where
  jwt : String
  getItems : String → Int → Date → ToDoResponse

/-- The `FullItemProcess` capability intersection from
src/core/interfaces.ts.  `createItem`'s item parameter is `Todo`: the
interface file imports the default export of ToDoItem.ts (the `Todo`
class) under the name `NewTodo`. -/
structure FullItemProcess where
  jwt : String
  getItems : String → Int → Date → ToDoResponse
  completeItem : String → Int → Int → Date → ToDoResponse
  deleteItem : String → Int → Int → Date → ToDoResponse
  createItem : String → Int → Todo → Date → ToDoResponse
  reassignItem : String → Int → Int → Int → Date → ToDoResponse

/-- JS truthiness of a `string | null` value: `null` and `""` are falsy. -/
def strTruthy : Option String → Bool
  | none => false
  | some s => !s.isEmpty

/-- One remote capability call, with the exact arguments passed. -/
inductive RemoteCall where
  | getItems (jwt : String) (userId : Int) (cutOffDate : Date)
  | completeItem (jwt : String) (userId : Int) (toDoId : Int) (cutOffDate : Date)
  | deleteItem (jwt : String) (userId : Int) (toDoId : Int) (cutOffDate : Date)
  | createItem (jwt : String) (userId : Int) (item : Todo) (cutOffDate : Date)
  | reassignItem (jwt : String) (userId : Int) (toDoId : Int) (newUserId : Int) (cutOffDate : Date)
deriving DecidableEq, Repr

/-- The `ToDoItems` collection.  `cid` identifies this instance's
`callbackHandle` closure (see module conventions). -/
structure ToDoItems where
  cid : Nat
  userId : Int
  jwt : String
  pendingItems : List Todo
  doneItems : List Todo
  interfaceHandle : FullItemProcess

/-- The `ToDoItems` constructor: both lists start empty. -/
def ToDoItems.create (cid : Nat) (id : Int) (jwt : String)
    (interfaceHandle : FullItemProcess) : ToDoItems :=
  { cid := cid
    userId := id
    jwt := jwt
    pendingItems := []
    doneItems := []
    interfaceHandle := interfaceHandle }

/-- `handleResponse`: returns `response.toDos` when it is truthy (a JS
array, even empty, is truthy), otherwise throws
`new Error(response.errorMessage!)` (an absent message stringifies to
"null"). -/
def ToDoItems.handleResponse (response : ToDoResponse) : Except String (List Todo) :=
  match response.toDos with
  | some toDos => Except.ok toDos
  | none => Except.error (response.errorMessage.getD "null")

/-- Rebinding of `handleTrigger` performed by `processItems` on each item:
`item.handleTrigger = this.callbackHandle`. -/
def Todo.bindTo (t : Todo) (cid : Nat) : Todo :=
  { t with handleTrigger := some cid }

/-- `processItems`: iterates the list, rebinds `handleTrigger` on every
element to this collection's dispatcher, and pushes each element onto
`doneItems` or `pendingItems` according to its `finished` flag. -/
def ToDoItems.processItems : ToDoItems → List Todo → ToDoItems
  | c, [] => c
  | c, item :: rest =>
    let item2 := item.bindTo c.cid
    if item2.finished then
      ToDoItems.processItems { c with doneItems := c.doneItems ++ [item2] } rest
    else
      ToDoItems.processItems { c with pendingItems := c.pendingItems ++ [item2] } rest

/-- `completeItem`: calls the remote capability with the collection's own
`jwt` and `userId`, gates the response through `handleResponse`; the call
record is returned alongside. -/
def ToDoItems.completeItem (c : ToDoItems) (item : Todo) (cutOffDate : Date) :
    Except String (List Todo) × RemoteCall :=
  (ToDoItems.handleResponse (c.interfaceHandle.completeItem c.jwt c.userId item.id cutOffDate),
   RemoteCall.completeItem c.jwt c.userId item.id cutOffDate)

/-- `deleteItem`, as `completeItem`. -/
def ToDoItems.deleteItem (c : ToDoItems) (item : Todo) (cutOffDate : Date) :
    Except String (List Todo) × RemoteCall :=
  (ToDoItems.handleResponse (c.interfaceHandle.deleteItem c.jwt c.userId item.id cutOffDate),
   RemoteCall.deleteItem c.jwt c.userId item.id cutOffDate)

/-- `createItem`: passes the whole `Todo` to the remote capability. -/
def ToDoItems.createItem (c : ToDoItems) (item : Todo) (cutOffDate : Date) :
    Except String (List Todo) × RemoteCall :=
  (ToDoItems.handleResponse (c.interfaceHandle.createItem c.jwt c.userId item cutOffDate),
   RemoteCall.createItem c.jwt c.userId item cutOffDate)

/-- `reassignItem`: passes `item.id` and the new user id. -/
def ToDoItems.reassignItem (c : ToDoItems) (item : Todo) (newId : Int) (cutOffDate : Date) :
    Except String (List Todo) × RemoteCall :=
  (ToDoItems.handleResponse (c.interfaceHandle.reassignItem c.jwt c.userId item.id newId cutOffDate),
   RemoteCall.reassignItem c.jwt c.userId item.id newId cutOffDate)

/-- `this.processItems(await ...)` under exceptions: on a fulfilled remote
result the list is processed, on a rejection `processItems` is never
reached and the rejection propagates with the collection unchanged. -/
def ToDoItems.applyResult (c : ToDoItems) (r : Except String (List Todo)) :
    ToDoItems × Except String Unit :=
  match r with
  | Except.ok toDos => (c.processItems toDos, Except.ok ())
  | Except.error e => (c, Except.error e)

/-- `callbackHandle`: exhaustive switch on the operation tag, one remote
capability call per dispatch.  Returns the new state, the promise outcome,
and the remote calls performed. -/
def ToDoItems.callbackHandle (c : ToDoItems) (item : Todo) (operation : Operation) :
    ToDoItems × Except String Unit × List RemoteCall :=
  match operation with
  | Operation.Complete cutOffDate =>
    let r := c.completeItem item cutOffDate
    ((c.applyResult r.1).1, (c.applyResult r.1).2, [r.2])
  | Operation.Delete cutOffDate =>
    let r := c.deleteItem item cutOffDate
    ((c.applyResult r.1).1, (c.applyResult r.1).2, [r.2])
  | Operation.Create cutOffDate =>
    let r := c.createItem item cutOffDate
    ((c.applyResult r.1).1, (c.applyResult r.1).2, [r.2])
  | Operation.Reassign newId cutOffDate =>
    let r := c.reassignItem item newId cutOffDate
    ((c.applyResult r.1).1, (c.applyResult r.1).2, [r.2])

/-- The remote response `callbackHandle` awaits for a given operation. -/
def ToDoItems.remoteResponseFor (c : ToDoItems) (item : Todo) : Operation → ToDoResponse
  | Operation.Complete cutOffDate =>
    c.interfaceHandle.completeItem c.jwt c.userId item.id cutOffDate
  | Operation.Delete cutOffDate =>
    c.interfaceHandle.deleteItem c.jwt c.userId item.id cutOffDate
  | Operation.Create cutOffDate =>
    c.interfaceHandle.createItem c.jwt c.userId item cutOffDate
  | Operation.Reassign newId cutOffDate =>
    c.interfaceHandle.reassignItem c.jwt c.userId item.id newId cutOffDate

/-- `populateItems`: calls `getter.getItems(getter.jwt, userId, cutOffDate)`;
when `items.errorMessage` is falsy it runs
`processItems(items.toDos!)` — if `toDos` is actually `null` the non-null
assertion lets `for (const item of null)` throw a `TypeError`, embedded as
the `Except.error` outcome — and returns a code-0 `EmptyResponse`;
otherwise it returns a code-1 `EmptyResponse` carrying the message. -/
def ToDoItems.populateItems (c : ToDoItems) (getter : ItemGetter)
    (userId : Int) (cutOffDate : Date) :
    ToDoItems × Except String EmptyResponse × RemoteCall :=
  let call := RemoteCall.getItems getter.jwt userId cutOffDate
  let items := getter.getItems getter.jwt userId cutOffDate
  if !(strTruthy items.errorMessage) then
    match items.toDos with
    | some toDos =>
      (c.processItems toDos, Except.ok { code := 0, message := none }, call)
    | none =>
      (c, Except.error "TypeError: items.toDos is not iterable", call)
  else
    (c, Except.ok { code := 1, message := items.errorMessage }, call)

/-- One invocation of a bound trigger closure, with its arguments. -/
structure TriggerCall where
  trig : Nat
  item : Todo
  operation : Operation
deriving DecidableEq, Repr

/-- `Todo.performOperation` as the list of trigger invocations it makes:
exactly one with `(this, operation)` when a trigger is bound, none
otherwise (silent no-op). -/
def Todo.performOperation (t : Todo) (operation : Operation) : List TriggerCall :=
  match t.handleTrigger with
  | some trig => [{ trig := trig, item := t, operation := operation }]
  | none => []

/-- `Todo.performOperation` run against the collection `c` owning the
bound dispatcher (if any): `await this.handleTrigger(this, operation)`
propagates the dispatch outcome to `performOperation`'s own promise; with
no trigger bound (or a trigger of some other collection) nothing happens
to `c`. -/
def Todo.performOperationOn (t : Todo) (c : ToDoItems) (operation : Operation) :
    ToDoItems × Except String Unit × List RemoteCall :=
  match t.handleTrigger with
  | some trig =>
    if trig = c.cid then c.callbackHandle t operation
    else (c, Except.ok (), [])
  | none => (c, Except.ok (), [])

/-- Invariant: every todo held in either list has `handleTrigger` bound to
this collection's dispatcher. -/
def ToDoItems.boundInv (c : ToDoItems) : Prop :=
  (∀ t ∈ c.pendingItems, t.handleTrigger = some c.cid) ∧
  (∀ t ∈ c.doneItems, t.handleTrigger = some c.cid)

/-- Invariant: `pendingItems` holds only unfinished todos, `doneItems`
only finished ones. -/
def ToDoItems.flagInv (c : ToDoItems) : Prop :=
  (∀ t ∈ c.pendingItems, t.finished = false) ∧
  (∀ t ∈ c.doneItems, t.finished = true)

@[simp]
theorem Todo.bindTo_finished (t : Todo) (cid : Nat) :
    (t.bindTo cid).finished = t.finished := rfl

@[simp]
theorem Todo.bindTo_trigger (t : Todo) (cid : Nat) :
    (t.bindTo cid).handleTrigger = some cid := rfl

/-- Characterisation of `processItems`: both lists are appended to (never
cleared), in list order, partitioned by the `finished` flag, with
`handleTrigger` rebound; all other fields are untouched. -/
theorem ToDoItems.processItems_spec (c : ToDoItems) (L : List Todo) :
    (c.processItems L).pendingItems
        = c.pendingItems ++ (L.filter (fun t => !t.finished)).map (fun t => t.bindTo c.cid)
    ∧ (c.processItems L).doneItems
        = c.doneItems ++ (L.filter (fun t => t.finished)).map (fun t => t.bindTo c.cid)
    ∧ (c.processItems L).cid = c.cid
    ∧ (c.processItems L).userId = c.userId
    ∧ (c.processItems L).jwt = c.jwt
    ∧ (c.processItems L).interfaceHandle = c.interfaceHandle := by
  induction L generalizing c with
  | nil => simp [ToDoItems.processItems]
  | cons item rest ih =>
    by_cases h : item.finished
    · have hrec := ih { c with doneItems := c.doneItems ++ [item.bindTo c.cid] }
      simp only [ToDoItems.processItems, Todo.bindTo_finished, h, if_pos] at hrec ⊢
      simp only [List.filter_cons, h, Bool.not_true, List.map_cons] at hrec ⊢
      simp at hrec ⊢
      exact ⟨hrec.1, by simp [hrec.2.1], hrec.2.2⟩
    · have hrec := ih { c with pendingItems := c.pendingItems ++ [item.bindTo c.cid] }
      simp only [Bool.not_eq_true] at h
      simp only [ToDoItems.processItems, Todo.bindTo_finished, h, if_neg, Bool.false_eq_true,
        not_false_iff] at hrec ⊢
      simp only [List.filter_cons, h, Bool.not_false, List.map_cons] at hrec ⊢
      simp at hrec ⊢
      exact ⟨by simp [hrec.1], hrec.2⟩

/-- `handleResponse` on a response whose payload is present. -/
theorem ToDoItems.handleResponse_ok (r : ToDoResponse) (toDos : List Todo)
    (h : r.toDos = some toDos) : ToDoItems.handleResponse r = Except.ok toDos := by
  unfold ToDoItems.handleResponse
  rw [h]

/-- `handleResponse` on a response whose payload is absent. -/
theorem ToDoItems.handleResponse_err (r : ToDoResponse) (msg : String)
    (h : r.toDos = none) (hm : r.errorMessage = some msg) :
    ToDoItems.handleResponse r = Except.error msg := by
  unfold ToDoItems.handleResponse
  rw [h, hm]
  rfl

/-- The state component of `applyResult` is the old collection on a
rejection, and `processItems` of the payload on a fulfilled result. -/
theorem ToDoItems.applyResult_state (c : ToDoItems) (r : Except String (List Todo)) :
    (c.applyResult r).1 = c
    ∨ ∃ toDos, r = Except.ok toDos ∧ (c.applyResult r).1 = c.processItems toDos := by
  cases r with
  | error e => left; rfl
  | ok toDos => right; exact ⟨toDos, rfl, rfl⟩

/-- The state after `callbackHandle` is the old collection or a
`processItems` pass over some returned list. -/
theorem ToDoItems.callbackHandle_state (c : ToDoItems) (item : Todo) (op : Operation) :
    (c.callbackHandle item op).1 = c
    ∨ ∃ toDos, (c.callbackHandle item op).1 = c.processItems toDos := by
  cases op with
  | Complete d =>
    rcases ToDoItems.applyResult_state c (c.completeItem item d).1 with h | ⟨ts, _, h⟩
    · exact Or.inl h
    · exact Or.inr ⟨ts, h⟩
  | Delete d =>
    rcases ToDoItems.applyResult_state c (c.deleteItem item d).1 with h | ⟨ts, _, h⟩
    · exact Or.inl h
    · exact Or.inr ⟨ts, h⟩
  | Create d =>
    rcases ToDoItems.applyResult_state c (c.createItem item d).1 with h | ⟨ts, _, h⟩
    · exact Or.inl h
    · exact Or.inr ⟨ts, h⟩
  | Reassign newId d =>
    rcases ToDoItems.applyResult_state c (c.reassignItem item newId d).1 with h | ⟨ts, _, h⟩
    · exact Or.inl h
    · exact Or.inr ⟨ts, h⟩

/-- The state after `populateItems` is the old collection or a
`processItems` pass over the returned list. -/
theorem ToDoItems.populateItems_state (c : ToDoItems) (getter : ItemGetter)
    (userId : Int) (cutOffDate : Date) :
    (c.populateItems getter userId cutOffDate).1 = c
    ∨ ∃ toDos, (getter.getItems getter.jwt userId cutOffDate).toDos = some toDos
        ∧ (c.populateItems getter userId cutOffDate).1 = c.processItems toDos := by
  simp only [ToDoItems.populateItems]
  cases hb : strTruthy (getter.getItems getter.jwt userId cutOffDate).errorMessage with
  | false =>
    cases ht : (getter.getItems getter.jwt userId cutOffDate).toDos with
    | none => simp [hb, ht]
    | some ts => simp [hb, ht]
  | true => simp [hb]

/-- `processItems` preserves the trigger-binding invariant. -/
theorem ToDoItems.processItems_boundInv (c : ToDoItems) (L : List Todo)
    (hb : c.boundInv) : (c.processItems L).boundInv := by
  obtain ⟨h1, h2, h3, _⟩ := ToDoItems.processItems_spec c L
  constructor
  · intro t ht
    rw [h1] at ht
    rw [h3]
    rcases List.mem_append.mp ht with h | h
    · exact hb.1 t h
    · obtain ⟨u, _, rfl⟩ := List.mem_map.mp h
      rfl
  · intro t ht
    rw [h2] at ht
    rw [h3]
    rcases List.mem_append.mp ht with h | h
    · exact hb.2 t h
    · obtain ⟨u, _, rfl⟩ := List.mem_map.mp h
      rfl

/-- `processItems` preserves the flag invariant. -/
theorem ToDoItems.processItems_flagInv (c : ToDoItems) (L : List Todo)
    (hf : c.flagInv) : (c.processItems L).flagInv := by
  obtain ⟨h1, h2, _⟩ := ToDoItems.processItems_spec c L
  constructor
  · intro t ht
    rw [h1] at ht
    rcases List.mem_append.mp ht with h | h
    · exact hf.1 t h
    · obtain ⟨u, hu, rfl⟩ := List.mem_map.mp h
      have := (List.mem_filter.mp hu).2
      simpa using this
  · intro t ht
    rw [h2] at ht
    rcases List.mem_append.mp ht with h | h
    · exact hf.2 t h
    · obtain ⟨u, hu, rfl⟩ := List.mem_map.mp h
      have := (List.mem_filter.mp hu).2
      simpa using this

/-! Concrete sample data used by the scenario claims and witnesses. -/

/-- A pending todo T1. -/
def sampleTodo : Todo :=
  { id := 1
    name := "T1"
    dueDate := none
    assignedBy := 10
    assignedTo := 2
    description := none
    dateAssigned := 0
    dateFinished := none
    finished := false
    handleTrigger := none }

/-- The same T1 as the remote now reports it: finished. -/
def sampleDone : Todo :=
  { sampleTodo with finished := true, dateFinished := some 5 }

/-- A remote whose every capability call fails with "unused". -/
def noRemote : FullItemProcess :=
  { jwt := "jwt0"
    getItems := fun _ _ _ => { errorMessage := some "unused", toDos := none }
    completeItem := fun _ _ _ _ => { errorMessage := some "unused", toDos := none }
    deleteItem := fun _ _ _ _ => { errorMessage := some "unused", toDos := none }
    createItem := fun _ _ _ _ => { errorMessage := some "unused", toDos := none }
    reassignItem := fun _ _ _ _ _ => { errorMessage := some "unused", toDos := none } }

/-- A collection whose `pendingItems` already holds T1 (unfinished). -/
def sampleCollection : ToDoItems :=
  { cid := 0
    userId := 2
    jwt := "jwt0"
    pendingItems := [sampleTodo]
    doneItems := []
    interfaceHandle := noRemote }

/-- A getter whose `getItems` succeeds with `[T1(finished)]`. -/
def finishedGetter : ItemGetter :=
  { jwt := "jwt0"
    getItems := fun _ _ _ => { errorMessage := none, toDos := some [sampleDone] } }

/-- C1: For every `ToDoItems` collection and todo list L, `processItems L`
appends rather than replaces: `pendingItems` becomes the old `pendingItems`
followed by the unfinished elements of L in order (with `handleTrigger`
rebound to this collection, as the loop mutates each element), `doneItems`
becomes the old `doneItems` followed by the finished elements of L in
order, and a repeated call accumulates duplicates: both lists grow by the
partition sizes again. -/
theorem claim_C1_processItems_appends (c : ToDoItems) (L : List Todo) :
    (c.processItems L).pendingItems
        = c.pendingItems ++ (L.filter (fun t => !t.finished)).map (fun t => t.bindTo c.cid)
    ∧ (c.processItems L).doneItems
        = c.doneItems ++ (L.filter (fun t => t.finished)).map (fun t => t.bindTo c.cid)
    ∧ ((c.processItems L).processItems L).pendingItems.length
        = c.pendingItems.length + 2 * (L.filter (fun t => !t.finished)).length
    ∧ ((c.processItems L).processItems L).doneItems.length
        = c.doneItems.length + 2 * (L.filter (fun t => t.finished)).length := by
  obtain ⟨h1, h2, h3, _⟩ := ToDoItems.processItems_spec c L
  obtain ⟨g1, g2, _⟩ := ToDoItems.processItems_spec (c.processItems L) L
  refine ⟨h1, h2, ?_, ?_⟩
  · rw [g1, h1, h3]
    simp [List.length_append]
    ring
  · rw [g2, h2, h3]
    simp [List.length_append]
    ring

/-- C10: a successful remote response whose payload is the empty list is
treated as success: `handleResponse` returns the empty list without
throwing, and `processItems []` leaves the collection (in particular both
lists) unchanged. -/
theorem claim_C10_empty_list_success (c : ToDoItems) :
    ToDoItems.handleResponse { errorMessage := none, toDos := some [] } = Except.ok []
    ∧ c.processItems [] = c :=
  ⟨rfl, rfl⟩

/-- C2 counterexample: with `pendingItems = [T1(unfinished)]` and
`getItems` returning `[T1(finished)]`, after `populateItems` the
`pendingItems` list is NOT empty — `processItems` appends and never clears
the stale pending entry. -/
theorem claim_C2_counterexample :
    (sampleCollection.populateItems finishedGetter 2 0).1.pendingItems ≠ [] := by
  decide

/-- C2 (amended): in that scenario `populateItems` succeeds with code 0,
`doneItems` becomes `[T1(finished)]` with the trigger bound, but
`pendingItems` still holds the stale unfinished T1 rather than becoming
empty. -/
theorem claim_C2_amended :
    (sampleCollection.populateItems finishedGetter 2 0).1.pendingItems = [sampleTodo]
    ∧ (sampleCollection.populateItems finishedGetter 2 0).1.doneItems = [sampleDone.bindTo 0]
    ∧ (sampleCollection.populateItems finishedGetter 2 0).2.1
        = Except.ok { code := 0, message := none } :=
  ⟨rfl, rfl, rfl⟩

/-- A getter whose `getItems` yields a failure envelope carrying the empty
string as its error message. -/
def emptyMsgGetter : ItemGetter :=
  { jwt := "jwt0"
    getItems := fun _ _ _ => { errorMessage := some "", toDos := none } }

/-- A remote whose every capability call succeeds with `[T1(finished)]`. -/
def okRemote : FullItemProcess :=
  { jwt := "jwt0"
    getItems := fun _ _ _ => { errorMessage := none, toDos := some [sampleDone] }
    completeItem := fun _ _ _ _ => { errorMessage := none, toDos := some [sampleDone] }
    deleteItem := fun _ _ _ _ => { errorMessage := none, toDos := some [sampleDone] }
    createItem := fun _ _ _ _ => { errorMessage := none, toDos := some [sampleDone] }
    reassignItem := fun _ _ _ _ _ => { errorMessage := none, toDos := some [sampleDone] } }

/-- An empty collection bound to the succeeding remote. -/
def okCollection : ToDoItems :=
  { cid := 1
    userId := 2
    jwt := "jwt0"
    pendingItems := []
    doneItems := []
    interfaceHandle := okRemote }

/-- A remote whose every capability call fails with "not found". -/
def failRemote : FullItemProcess :=
  { jwt := "jwt0"
    getItems := fun _ _ _ => { errorMessage := some "not found", toDos := none }
    completeItem := fun _ _ _ _ => { errorMessage := some "not found", toDos := none }
    deleteItem := fun _ _ _ _ => { errorMessage := some "not found", toDos := none }
    createItem := fun _ _ _ _ => { errorMessage := some "not found", toDos := none }
    reassignItem := fun _ _ _ _ _ => { errorMessage := some "not found", toDos := none } }

/-- An empty collection bound to the failing remote. -/
def failCollection : ToDoItems :=
  { cid := 2
    userId := 2
    jwt := "jwt0"
    pendingItems := []
    doneItems := []
    interfaceHandle := failRemote }

/-- T1 with its trigger bound to `failCollection`'s dispatcher. -/
def boundTodo : Todo :=
  { sampleTodo with handleTrigger := some 2 }

/-- C3 counterexample: a failure `ToDoResponse` whose error message is
present but empty (`errorMessage = ""`, `toDos = null`) is NOT answered
with a code-1 `EmptyResponse`: `!items.errorMessage` treats the empty
string as falsy, `populateItems` takes the success branch, and the
non-null assertion on the absent payload makes the call throw a
`TypeError` instead of returning. -/
theorem claim_C3_counterexample :
    (sampleCollection.populateItems emptyMsgGetter 2 0).2.1
        = Except.error "TypeError: items.toDos is not iterable"
    ∧ (sampleCollection.populateItems emptyMsgGetter 2 0).2.1
        ≠ Except.ok { code := 1, message := some "" } := by
  constructor
  · rfl
  · intro h
    rw [show (sampleCollection.populateItems emptyMsgGetter 2 0).2.1
        = Except.error "TypeError: items.toDos is not iterable" from rfl] at h
    exact Except.noConfusion h

/-- C3 (amended): for every getter whose `getItems` yields a failure
response with a NON-EMPTY error message and absent payload,
`populateItems` returns a code-1 `EmptyResponse` carrying that message and
leaves both lists unchanged; for every success response it passes the
returned list to `processItems` and returns a code-0 `EmptyResponse` with
no message.  (A present-but-empty error message instead falls into the
success branch and throws, see the counterexample.) -/
theorem claim_C3_populateItems (c : ToDoItems) (getter : ItemGetter)
    (userId : Int) (cutOffDate : Date) :
    (∀ msg, getter.getItems getter.jwt userId cutOffDate
          = { errorMessage := some msg, toDos := none } → msg ≠ "" →
        (c.populateItems getter userId cutOffDate).2.1
            = Except.ok { code := 1, message := some msg }
        ∧ (c.populateItems getter userId cutOffDate).1.pendingItems = c.pendingItems
        ∧ (c.populateItems getter userId cutOffDate).1.doneItems = c.doneItems)
    ∧ (∀ toDos, getter.getItems getter.jwt userId cutOffDate
          = { errorMessage := none, toDos := some toDos } →
        (c.populateItems getter userId cutOffDate).1 = c.processItems toDos
        ∧ (c.populateItems getter userId cutOffDate).2.1
            = Except.ok { code := 0, message := none }) := by
  constructor
  · intro msg h hne
    have hE : msg.isEmpty = false := by
      cases hEmp : msg.isEmpty
      · rfl
      · exact absurd ((String.isEmpty_iff msg).mp hEmp) hne
    simp [ToDoItems.populateItems, h, strTruthy, hE]
  · intro toDos h
    simp [ToDoItems.populateItems, h, strTruthy]

/-- C3 witness: instantiating the amended theorem at the "not found"
failure remote and at the success getter. -/
theorem claim_C3_witness :
    ((failCollection.populateItems
        { jwt := "jwt0", getItems := failRemote.getItems } 2 0).2.1
      = Except.ok { code := 1, message := some "not found" })
    ∧ (okCollection.populateItems finishedGetter 2 0).2.1
      = Except.ok { code := 0, message := none } := by
  refine ⟨?_, ?_⟩
  · exact ((claim_C3_populateItems failCollection
      { jwt := "jwt0", getItems := failRemote.getItems } 2 0).1 "not found" rfl
      (by decide)).1
  · exact ((claim_C3_populateItems okCollection finishedGetter 2 0).2 [sampleDone] rfl).2

/-- C4: each dispatched `(Todo, Operation)` pair performs exactly one
remote capability call, selected by exhaustive match on the operation tag
with the collection's own `jwt`/`userId` (Complete/Delete/Reassign pass
`todo.id`, Create passes the todo itself, Reassign adds `newId`); on a
successful response the returned list is passed to `processItems`. -/
theorem claim_C4_dispatch (c : ToDoItems) (item : Todo) (d : Date) (newId : Int) :
    (c.callbackHandle item (Operation.Complete d)).2.2
        = [RemoteCall.completeItem c.jwt c.userId item.id d]
    ∧ (c.callbackHandle item (Operation.Delete d)).2.2
        = [RemoteCall.deleteItem c.jwt c.userId item.id d]
    ∧ (c.callbackHandle item (Operation.Create d)).2.2
        = [RemoteCall.createItem c.jwt c.userId item d]
    ∧ (c.callbackHandle item (Operation.Reassign newId d)).2.2
        = [RemoteCall.reassignItem c.jwt c.userId item.id newId d]
    ∧ (∀ op toDos, (c.remoteResponseFor item op).toDos = some toDos →
        (c.callbackHandle item op).1 = c.processItems toDos) := by
  refine ⟨rfl, rfl, rfl, rfl, ?_⟩
  intro op toDos h
  cases op with
  | Complete d2 =>
    simp only [ToDoItems.remoteResponseFor] at h
    simp [ToDoItems.callbackHandle, ToDoItems.completeItem, ToDoItems.applyResult,
      ToDoItems.handleResponse_ok _ _ h]
  | Delete d2 =>
    simp only [ToDoItems.remoteResponseFor] at h
    simp [ToDoItems.callbackHandle, ToDoItems.deleteItem, ToDoItems.applyResult,
      ToDoItems.handleResponse_ok _ _ h]
  | Create d2 =>
    simp only [ToDoItems.remoteResponseFor] at h
    simp [ToDoItems.callbackHandle, ToDoItems.createItem, ToDoItems.applyResult,
      ToDoItems.handleResponse_ok _ _ h]
  | Reassign newId2 d2 =>
    simp only [ToDoItems.remoteResponseFor] at h
    simp [ToDoItems.callbackHandle, ToDoItems.reassignItem, ToDoItems.applyResult,
      ToDoItems.handleResponse_ok _ _ h]

/-- C4 witness: the dispatch theorem instantiated at a concrete succeeding
remote, the success hypothesis discharged by computation. -/
theorem claim_C4_dispatch_witness :
    (okCollection.callbackHandle sampleTodo (Operation.Complete 0)).1
      = okCollection.processItems [sampleDone] :=
  (claim_C4_dispatch okCollection sampleTodo 0 7).2.2.2.2
    (Operation.Complete 0) [sampleDone] rfl

/-- C5 counterexample: with `completeItem` failing with
`errorMessage = "not found"` and the todo's trigger bound, the rejection
IS surfaced to the caller of `performOperation`: `performOperation` awaits
the bound trigger, so its own promise rejects with "not found" rather
than resolving — refuting the claim's "the failure is not surfaced to the
caller of performOperation". -/
theorem claim_C5_counterexample :
    (boundTodo.performOperationOn failCollection (Operation.Complete 0)).2.1
        = Except.error "not found"
    ∧ (boundTodo.performOperationOn failCollection (Operation.Complete 0)).2.1
        ≠ Except.ok () := by
  constructor
  · rfl
  · intro h
    rw [show (boundTodo.performOperationOn failCollection (Operation.Complete 0)).2.1
        = Except.error "not found" from rfl] at h
    exact Except.noConfusion h

/-- C5 (amended): for every dispatched operation whose remote capability
call returns a `ToDoResponse` with `toDos` absent, the dispatch promise
rejects with the response's `errorMessage` as its message and both lists
remain exactly as before (`processItems` is never reached); the failure IS
surfaced to the caller of `performOperation`, whose own promise rejects
with the same message, because `performOperation` awaits the bound
trigger. -/
theorem claim_C5_dispatch_failure (c : ToDoItems) (item : Todo) (op : Operation)
    (msg : String)
    (h : c.remoteResponseFor item op = { errorMessage := some msg, toDos := none })
    (hb : item.handleTrigger = some c.cid) :
    (c.callbackHandle item op).1 = c
    ∧ (c.callbackHandle item op).2.1 = Except.error msg
    ∧ (item.performOperationOn c op).1 = c
    ∧ (item.performOperationOn c op).2.1 = Except.error msg := by
  have hmain : (c.callbackHandle item op).1 = c
      ∧ (c.callbackHandle item op).2.1 = Except.error msg := by
    cases op with
    | Complete d =>
      simp only [ToDoItems.remoteResponseFor] at h
      simp [ToDoItems.callbackHandle, ToDoItems.completeItem, ToDoItems.applyResult, h,
        ToDoItems.handleResponse]
    | Delete d =>
      simp only [ToDoItems.remoteResponseFor] at h
      simp [ToDoItems.callbackHandle, ToDoItems.deleteItem, ToDoItems.applyResult, h,
        ToDoItems.handleResponse]
    | Create d =>
      simp only [ToDoItems.remoteResponseFor] at h
      simp [ToDoItems.callbackHandle, ToDoItems.createItem, ToDoItems.applyResult, h,
        ToDoItems.handleResponse]
    | Reassign newId d =>
      simp only [ToDoItems.remoteResponseFor] at h
      simp [ToDoItems.callbackHandle, ToDoItems.reassignItem, ToDoItems.applyResult, h,
        ToDoItems.handleResponse]
  refine ⟨hmain.1, hmain.2, ?_, ?_⟩
  · simp [Todo.performOperationOn, hb, hmain.1]
  · simp [Todo.performOperationOn, hb, hmain.2]

/-- C5 witness: the amended theorem instantiated at the concrete failing
remote with a bound todo, both hypotheses discharged by computation. -/
theorem claim_C5_dispatch_failure_witness :
    (failCollection.callbackHandle boundTodo (Operation.Complete 0)).1 = failCollection
    ∧ (failCollection.callbackHandle boundTodo (Operation.Complete 0)).2.1
        = Except.error "not found"
    ∧ (boundTodo.performOperationOn failCollection (Operation.Complete 0)).1
        = failCollection
    ∧ (boundTodo.performOperationOn failCollection (Operation.Complete 0)).2.1
        = Except.error "not found" :=
  claim_C5_dispatch_failure failCollection boundTodo (Operation.Complete 0)
    "not found" rfl rfl

/-- C6: `performOperation` on a todo with no bound trigger resolves
without throwing, makes no trigger invocation, and mutates no collection
state and performs no remote call; on a todo with a bound trigger it
invokes the trigger exactly once with the pair `(self, op)`. -/
theorem claim_C6_performOperation (t : Todo) (c : ToDoItems) (op : Operation) :
    (t.handleTrigger = none →
        t.performOperation op = []
        ∧ t.performOperationOn c op = (c, Except.ok (), []))
    ∧ (∀ trig, t.handleTrigger = some trig →
        t.performOperation op = [{ trig := trig, item := t, operation := op }]) := by
  constructor
  · intro h
    exact ⟨by simp [Todo.performOperation, h], by simp [Todo.performOperationOn, h]⟩
  · intro trig h
    simp [Todo.performOperation, h]

/-- C6 witness: the theorem instantiated at an unbound todo and at a bound
one, the trigger hypotheses discharged by computation. -/
theorem claim_C6_performOperation_witness :
    sampleTodo.performOperation (Operation.Create 0) = []
    ∧ sampleTodo.performOperationOn sampleCollection (Operation.Create 0)
        = (sampleCollection, Except.ok (), [])
    ∧ boundTodo.performOperation (Operation.Create 0)
        = [{ trig := 2, item := boundTodo, operation := Operation.Create 0 }] := by
  obtain ⟨h1, h2⟩ :=
    (claim_C6_performOperation sampleTodo sampleCollection (Operation.Create 0)).1 rfl
  exact ⟨h1, h2,
    (claim_C6_performOperation boundTodo sampleCollection (Operation.Create 0)).2 2 rfl⟩

/-- C7: a freshly constructed collection satisfies the trigger-binding
invariant, and every operation (`populateItems`, a dispatched
Complete/Delete/Create/Reassign) preserves it — including the successful
ones: afterwards every todo in `pendingItems` or `doneItems` has
`handleTrigger` bound to this collection's dispatcher; and rebinding an
already-bound todo is idempotent. -/
theorem claim_C7_binding_invariant (c : ToDoItems) (getter : ItemGetter)
    (userId : Int) (cutOffDate : Date) (item : Todo) (op : Operation)
    (hb : c.boundInv) :
    (c.populateItems getter userId cutOffDate).1.boundInv
    ∧ (c.callbackHandle item op).1.boundInv
    ∧ (∀ t : Todo, t.handleTrigger = some c.cid → t.bindTo c.cid = t)
    ∧ (∀ cid id jwt ih, (ToDoItems.create cid id jwt ih).boundInv) := by
  refine ⟨?_, ?_, ?_, ?_⟩
  · rcases ToDoItems.populateItems_state c getter userId cutOffDate with h | ⟨ts, _, h⟩
    · rw [h]; exact hb
    · rw [h]; exact ToDoItems.processItems_boundInv c ts hb
  · rcases ToDoItems.callbackHandle_state c item op with h | ⟨ts, h⟩
    · rw [h]; exact hb
    · rw [h]; exact ToDoItems.processItems_boundInv c ts hb
  · intro t ht
    cases t
    simp only [Todo.bindTo] at ht ⊢
    simp_all
  · intro cid id jwt ih
    exact ⟨by simp [ToDoItems.create], by simp [ToDoItems.create]⟩

/-- C7 witness: the invariant theorem instantiated at the empty collection
`okCollection` (whose invariant holds by computation), run through a
successful `populateItems` and a successful dispatch. -/
theorem claim_C7_binding_invariant_witness :
    (okCollection.populateItems finishedGetter 2 0).1.boundInv
    ∧ (okCollection.callbackHandle sampleTodo (Operation.Complete 0)).1.boundInv := by
  have h := claim_C7_binding_invariant okCollection finishedGetter 2 0 sampleTodo
    (Operation.Complete 0)
    (by exact ⟨by simp [okCollection], by simp [okCollection]⟩)
  exact ⟨h.1, h.2.1⟩

/-- C8: starting from a collection whose lists satisfy the flag invariant
(`pendingItems` all unfinished, `doneItems` all finished — as established
by the constructor and preserved by every `processItems` pass), after
`processItems L` every todo of L is contained, with its trigger rebound,
in exactly the one list chosen by its `finished` flag at partition time,
the flag invariant still holds, and no todo value appears in both lists
simultaneously. -/
theorem claim_C8_partition (c : ToDoItems) (L : List Todo) (hf : c.flagInv) :
    (∀ t ∈ L,
        (t.finished = true →
            t.bindTo c.cid ∈ (c.processItems L).doneItems
            ∧ t.bindTo c.cid ∉ (c.processItems L).pendingItems)
        ∧ (t.finished = false →
            t.bindTo c.cid ∈ (c.processItems L).pendingItems
            ∧ t.bindTo c.cid ∉ (c.processItems L).doneItems))
    ∧ (∀ t : Todo, ¬(t ∈ (c.processItems L).pendingItems
        ∧ t ∈ (c.processItems L).doneItems))
    ∧ (c.processItems L).flagInv := by
  have hfl := ToDoItems.processItems_flagInv c L hf
  obtain ⟨h1, h2, _⟩ := ToDoItems.processItems_spec c L
  refine ⟨?_, ?_, hfl⟩
  · intro t htL
    constructor
    · intro hfin
      constructor
      · rw [h2]
        apply List.mem_append_right
        exact List.mem_map.mpr ⟨t, List.mem_filter.mpr ⟨htL, by simp [hfin]⟩, rfl⟩
      · intro hmem
        have hx := hfl.1 _ hmem
        rw [Todo.bindTo_finished, hfin] at hx
        exact Bool.noConfusion hx
    · intro hfin
      constructor
      · rw [h1]
        apply List.mem_append_right
        exact List.mem_map.mpr ⟨t, List.mem_filter.mpr ⟨htL, by simp [hfin]⟩, rfl⟩
      · intro hmem
        have hx := hfl.2 _ hmem
        rw [Todo.bindTo_finished, hfin] at hx
        exact Bool.noConfusion hx
  · rintro t ⟨hp, hd⟩
    have e1 := hfl.1 t hp
    have e2 := hfl.2 t hd
    rw [e1] at e2
    exact Bool.noConfusion e2

/-- C8 witness: the partition theorem instantiated at the empty collection
and the concrete list `[T1(unfinished), T1(finished)]`. -/
theorem claim_C8_partition_witness :
    sampleDone.bindTo 1 ∈ (okCollection.processItems [sampleTodo, sampleDone]).doneItems
    ∧ sampleTodo.bindTo 1 ∈ (okCollection.processItems [sampleTodo, sampleDone]).pendingItems := by
  have h := claim_C8_partition okCollection [sampleTodo, sampleDone]
    (by exact ⟨by simp [okCollection], by simp [okCollection]⟩)
  exact ⟨(((h.1 sampleDone (by simp)).1) (by decide)).1,
    (((h.1 sampleTodo (by simp)).2) (by decide)).1⟩

/-- C9: `populateItems` authenticates with the getter's own `jwt` field
and its `userId` argument, never the collection's own `jwt`/`userId`
fields: for any two collections that differ only in their `jwt` and
`userId` fields, the same `populateItems` call performs the identical
remote call (`getItems(getter.jwt, userId, cutOffDate)`), produces
identical return values, and identical final list contents. -/
theorem claim_C9_noninterference (c1 c2 : ToDoItems) (getter : ItemGetter)
    (userId : Int) (cutOffDate : Date)
    (hcid : c1.cid = c2.cid) (hp : c1.pendingItems = c2.pendingItems)
    (hd : c1.doneItems = c2.doneItems)
    (_hi : c1.interfaceHandle = c2.interfaceHandle) :
    (c1.populateItems getter userId cutOffDate).2.2
        = RemoteCall.getItems getter.jwt userId cutOffDate
    ∧ (c1.populateItems getter userId cutOffDate).2.2
        = (c2.populateItems getter userId cutOffDate).2.2
    ∧ (c1.populateItems getter userId cutOffDate).2.1
        = (c2.populateItems getter userId cutOffDate).2.1
    ∧ (c1.populateItems getter userId cutOffDate).1.pendingItems
        = (c2.populateItems getter userId cutOffDate).1.pendingItems
    ∧ (c1.populateItems getter userId cutOffDate).1.doneItems
        = (c2.populateItems getter userId cutOffDate).1.doneItems := by
  simp only [ToDoItems.populateItems]
  cases hb : strTruthy (getter.getItems getter.jwt userId cutOffDate).errorMessage with
  | false =>
    cases ht : (getter.getItems getter.jwt userId cutOffDate).toDos with
    | none => simp [hb, ht, hp, hd]
    | some ts =>
      obtain ⟨p1, d1, _⟩ := ToDoItems.processItems_spec c1 ts
      obtain ⟨p2, d2, _⟩ := ToDoItems.processItems_spec c2 ts
      simp [hb, ht, p1, p2, d1, d2, hp, hd, hcid]
  | true => simp [hb, hp, hd]

/-- A collection identical to `collectionB` below except for its `jwt` and
`userId` fields. -/
def collectionA : ToDoItems :=
  { cid := 3
    userId := 2
    jwt := "jwtA"
    pendingItems := []
    doneItems := []
    interfaceHandle := okRemote }

/-- A collection identical to `collectionA` except for its `jwt` and
`userId` fields. -/
def collectionB : ToDoItems :=
  { cid := 3
    userId := 99
    jwt := "jwtB"
    pendingItems := []
    doneItems := []
    interfaceHandle := okRemote }

/-- C9 witness: the non-interference theorem instantiated at two concrete
collections that differ only in `jwt` and `userId`, all hypotheses
discharged by computation. -/
theorem claim_C9_noninterference_witness :
    (collectionA.populateItems finishedGetter 2 0).2.2
        = RemoteCall.getItems "jwt0" 2 0
    ∧ (collectionA.populateItems finishedGetter 2 0).1.pendingItems
        = (collectionB.populateItems finishedGetter 2 0).1.pendingItems
    ∧ (collectionA.populateItems finishedGetter 2 0).1.doneItems
        = (collectionB.populateItems finishedGetter 2 0).1.doneItems := by
  have h := claim_C9_noninterference collectionA collectionB finishedGetter 2 0
    rfl rfl rfl rfl
  exact ⟨h.1, h.2.2.2.1, h.2.2.2.2⟩

end WebServer
